import Mathlib

/-!
Verification of the SAP data reconciliation pipeline
(`process_sap_data.py`, `update_ai_search.py`).

Raw rows, per-source rollups, the cross-source merge, the sales relabeling,
the ETL orchestrator and the search-index updater are embedded as executable
Lean functions.  Numeric columns are modelled as exact rationals; dates as
integers; nullable columns as `Option`.  Pandas aggregation semantics are
modelled faithfully: `sum` skips nulls and yields 0 on an all-null group,
`max`/`mean`/`first` skip nulls and yield null on an all-null group,
`count` counts non-null entries, group keys are deduplicated and sorted
ascending, rows keep their original order inside a group, and an `agg`
dictionary naming a column that is absent from the frame raises a `KeyError`.
Float division by zero follows IEEE semantics (`inf`/`-inf`/`NaN`, no error);
division with a non-zero divisor is idealized as exact rational division.
-/

namespace SapPipeline

/-- A raw SAP ECC row as returned by `get_raw_sap_ecc_data`. -/
structure EccRow where
  customerID : String
  orderNumber : Option String
  orderDate : Option Int
  productCode : String
  quantity : Option Rat
  unitPrice : Option Rat
  totalAmount : Option Rat
  status : Option String
  salesRep : Option String
  region : Option String
  processedDate : Option Int
deriving DecidableEq, Repr

/-- A raw SAP BW row as returned by `get_raw_sap_bw_data`. -/
structure BwRow where
  customerID : String
  productCode : String
  salesAmount : Option Rat
  salesQuantity : Option Rat
  salesDate : Option Int
  salesRep : Option String
  region : Option String
  channel : Option String
  productCategory : Option String
  customerSegment : Option String
  processedDate : Option Int
deriving DecidableEq, Repr

/-- Lexicographic comparison of character lists by code point. -/
def charListLe : List Char → List Char → Bool
  | [], _ => true
  | _ :: _, [] => false
  | a :: as, b :: bs =>
      if a.val < b.val then true
      else if b.val < a.val then false
      else charListLe as bs

/-- Lexicographic string comparison (ascending key order of `groupby`). -/
def strLe (a b : String) : Bool := charListLe a.data b.data

/-- Equality of character lists, by code point. -/
def charListEq : List Char → List Char → Bool
  | [], [] => true
  | a :: as, b :: bs => a.val == b.val && charListEq as bs
  | _, _ => false

/-- String equality computed on the character lists. -/
def strEq (a b : String) : Bool := charListEq a.data b.data

/-- Whether `p` is a prefix of `s`, computed on the character lists. -/
def strStartsWith (p s : String) : Bool :=
  go p.data s.data
where
  go : List Char → List Char → Bool
    | [], _ => true
    | _ :: _, [] => false
    | a :: as, b :: bs => a.val == b.val && go as bs

/-- Insert a string into a (sorted) list, keeping ascending order. -/
def insertStr (s : String) : List String → List String
  | [] => [s]
  | x :: xs => if strLe s x then s :: x :: xs else x :: insertStr s xs

/-- Insertion sort on strings, ascending (pandas `groupby` sorts keys). -/
def sortStr : List String → List String
  | [] => []
  | x :: xs => insertStr x (sortStr xs)

/-- Distinct values of a column (each value kept once). -/
def dedupStr : List String → List String
  | [] => []
  | x :: xs => if xs.contains x then dedupStr xs else x :: dedupStr xs

/-- Pandas `groupby` keys: distinct values, sorted ascending. -/
def sortedKeys (l : List String) : List String :=
  sortStr (dedupStr l)

/-- Pandas `sum` aggregation: skip nulls, 0 on an all-null group. -/
def pdSum (l : List (Option Rat)) : Rat :=
  (l.filterMap id).sum

/-- Pandas `count` aggregation: number of non-null entries. -/
def pdCount {α : Type} (l : List (Option α)) : Nat :=
  (l.filterMap id).length

/-- Pandas `max` aggregation on a date column: skip nulls, null if all null. -/
def pdMax (l : List (Option Int)) : Option Int :=
  match l.filterMap id with
  | [] => none
  | x :: xs => some (xs.foldl max x)

/-- Pandas `first` aggregation: first non-null value, null if all null. -/
def pdFirst {α : Type} (l : List (Option α)) : Option α :=
  (l.filterMap id).head?

/-- Pandas `mean` aggregation: mean of the non-null values, null if all null. -/
def pdMean (l : List (Option Rat)) : Option Rat :=
  match l.filterMap id with
  | [] => none
  | x :: xs => some ((x :: xs).sum / (x :: xs).length)

/-- A pandas float cell: a finite (exact-rational-idealized) value, an IEEE
infinity, or `NaN`.  `NaN` is what pandas treats as null/undefined. -/
inductive PdVal where
  | finite (q : Rat)
  | posInf
  | negInf
  | nan
deriving DecidableEq, Repr

/-- A nullable numeric cell viewed as a float cell (null is `NaN`). -/
def toPdVal : Option Rat → PdVal
  | some q => .finite q
  | none => .nan

/-- Pandas `isna` on a float cell: only `NaN` is null/undefined. -/
def pdIsNA : PdVal → Bool
  | .nan => true
  | _ => false

/-- Pandas element-wise division `a / b`: IEEE zero-divisor semantics
(`inf`, `-inf`, `NaN`), never an exception; exact elsewhere. -/
def pdDiv : Option Rat → Option Rat → PdVal
  | some a, some b =>
      if b = 0 then
        if 0 < a then .posInf else if a < 0 then .negInf else .nan
      else .finite (a / b)
  | _, _ => .nan

/-- The ECC per-source customer rollup row (`ecc_customers` after renaming). -/
structure CustRollupE where
  customerID : String
  totalOrders : Nat
  totalSalesAmount : Rat
  lastOrderDate : Option Int
  region : Option String
  salesRep : Option String
  dataSource : String
deriving DecidableEq, Repr

/-- The ECC customer rollup row for one group key:
count of non-null `OrderNumber`, sum of `TotalAmount`, max `OrderDate`,
first non-null `Region` and `SalesRep`. -/
def mkEccCust (ecc : List EccRow) (k : String) : CustRollupE :=
  let g := ecc.filter (fun r => r.customerID == k)
  { customerID := k
    totalOrders := pdCount (g.map (·.orderNumber))
    totalSalesAmount := pdSum (g.map (·.totalAmount))
    lastOrderDate := pdMax (g.map (·.orderDate))
    region := pdFirst (g.map (·.region))
    salesRep := pdFirst (g.map (·.salesRep))
    dataSource := "SAP_ECC" }

/-- `ecc_data.groupby('CustomerID').agg(...)` of `process_customer_data`. -/
def eccCustomerRollup (ecc : List EccRow) : List CustRollupE :=
  (sortedKeys (ecc.map (·.customerID))).map (mkEccCust ecc)

/-- The BW per-source customer rollup row (`bw_customers` after renaming,
with `TotalOrders = 0` added). -/
structure CustRollupB where
  customerID : String
  totalSalesAmount : Rat
  totalQuantity : Rat
  lastOrderDate : Option Int
  region : Option String
  customerSegment : Option String
  salesRep : Option String
  totalOrders : Nat
  dataSource : String
deriving DecidableEq, Repr

/-- The BW customer rollup row for one group key. -/
def mkBwCust (bw : List BwRow) (k : String) : CustRollupB :=
  let g := bw.filter (fun r => r.customerID == k)
  { customerID := k
    totalSalesAmount := pdSum (g.map (·.salesAmount))
    totalQuantity := pdSum (g.map (·.salesQuantity))
    lastOrderDate := pdMax (g.map (·.salesDate))
    region := pdFirst (g.map (·.region))
    customerSegment := pdFirst (g.map (·.customerSegment))
    salesRep := pdFirst (g.map (·.salesRep))
    totalOrders := 0
    dataSource := "SAP_BW" }

/-- `bw_data.groupby('CustomerID').agg(...)` of `process_customer_data`. -/
def bwCustomerRollup (bw : List BwRow) : List CustRollupB :=
  (sortedKeys (bw.map (·.customerID))).map (mkBwCust bw)

/-- A row of `combined_customers = pd.concat(customer_data)`: the union of the
two rollup shapes, columns missing on one side filled with null. -/
structure CombCust where
  customerID : String
  totalOrders : Nat
  totalSalesAmount : Rat
  lastOrderDate : Option Int
  region : Option String
  salesRep : Option String
  customerSegment : Option String
  totalQuantity : Option Rat
  dataSource : String
deriving DecidableEq, Repr

/-- An ECC rollup row aligned to the combined column set. -/
def eccCustToComb (r : CustRollupE) : CombCust :=
  { customerID := r.customerID
    totalOrders := r.totalOrders
    totalSalesAmount := r.totalSalesAmount
    lastOrderDate := r.lastOrderDate
    region := r.region
    salesRep := r.salesRep
    customerSegment := none
    totalQuantity := none
    dataSource := r.dataSource }

/-- A BW rollup row aligned to the combined column set. -/
def bwCustToComb (r : CustRollupB) : CombCust :=
  { customerID := r.customerID
    totalOrders := r.totalOrders
    totalSalesAmount := r.totalSalesAmount
    lastOrderDate := r.lastOrderDate
    region := r.region
    salesRep := r.salesRep
    customerSegment := r.customerSegment
    totalQuantity := some r.totalQuantity
    dataSource := r.dataSource }

/-- A reconciled customer row (`final_customers` with metadata). -/
structure Customer where
  customerID : String
  totalOrders : Nat
  totalSalesAmount : Rat
  lastOrderDate : Option Int
  region : Option String
  salesRep : Option String
  customerSegment : Option String
  createdDate : Int
  updatedDate : Int
  isActive : Bool
deriving DecidableEq, Repr

/-- The merged customer row for one group key of the final aggregation:
sums of `TotalOrders` and `TotalSalesAmount`, max `LastOrderDate`, first
non-null `Region`, `SalesRep` and `CustomerSegment`, stamped with `now`. -/
def mkFinalCust (rows : List CombCust) (now : Int) (k : String) : Customer :=
  let g := rows.filter (fun r => r.customerID == k)
  { customerID := k
    totalOrders := (g.map (·.totalOrders)).sum
    totalSalesAmount := (g.map (·.totalSalesAmount)).sum
    lastOrderDate := pdMax (g.map (·.lastOrderDate))
    region := pdFirst (g.map (·.region))
    salesRep := pdFirst (g.map (·.salesRep))
    customerSegment := pdFirst (g.map (·.customerSegment))
    createdDate := now
    updatedDate := now
    isActive := true }

/-- `combined_customers.groupby('CustomerID').agg(...)` plus metadata. -/
def finalCustomerAgg (rows : List CombCust) (now : Int) : List Customer :=
  (sortedKeys (rows.map (·.customerID))).map (mkFinalCust rows now)

/-- `SapDataProcessor.process_customer_data`.  The per-source branches run
only on a non-empty source; an empty `customer_data` list yields an empty
frame.  The final `agg` names the `CustomerSegment` column, which exists in
`combined_customers` only when the BW branch contributed, so with a
non-empty ECC input and an empty BW input pandas raises a `KeyError`,
which the function re-raises. -/
def processCustomerData (ecc : List EccRow) (bw : List BwRow) (now : Int) :
    Except String (List Customer) :=
  let customerData : List (List CombCust) :=
    (if ecc.isEmpty then [] else [(eccCustomerRollup ecc).map eccCustToComb])
      ++ (if bw.isEmpty then [] else [(bwCustomerRollup bw).map bwCustToComb])
  if customerData.isEmpty then Except.ok []
  else
    let combined := customerData.flatten
    if bw.isEmpty then Except.error "KeyError: CustomerSegment"
    else Except.ok (finalCustomerAgg combined now)

/-- The ECC per-source product rollup row (`ecc_products` after renaming). -/
structure ProdRollupE where
  productCode : String
  totalQuantitySold : Rat
  totalSalesAmount : Rat
  unitPrice : Option Rat
  dataSource : String
deriving DecidableEq, Repr

/-- The ECC product rollup row for one group key: sum of `Quantity`, sum of
`TotalAmount`, mean of the line `UnitPrice` values. -/
def mkEccProd (ecc : List EccRow) (k : String) : ProdRollupE :=
  let g := ecc.filter (fun r => r.productCode == k)
  { productCode := k
    totalQuantitySold := pdSum (g.map (·.quantity))
    totalSalesAmount := pdSum (g.map (·.totalAmount))
    unitPrice := pdMean (g.map (·.unitPrice))
    dataSource := "SAP_ECC" }

/-- `ecc_data.groupby('ProductCode').agg(...)` of `process_product_data`. -/
def eccProductRollup (ecc : List EccRow) : List ProdRollupE :=
  (sortedKeys (ecc.map (·.productCode))).map (mkEccProd ecc)

/-- The BW per-source product rollup row (`bw_products` after renaming, with
the constant column `UnitPrice = 0` added). -/
structure ProdRollupB where
  productCode : String
  totalQuantitySold : Rat
  totalSalesAmount : Rat
  productCategory : Option String
  unitPrice : Rat
  dataSource : String
deriving DecidableEq, Repr

/-- The BW product rollup row for one group key. -/
def mkBwProd (bw : List BwRow) (k : String) : ProdRollupB :=
  let g := bw.filter (fun r => r.productCode == k)
  { productCode := k
    totalQuantitySold := pdSum (g.map (·.salesQuantity))
    totalSalesAmount := pdSum (g.map (·.salesAmount))
    productCategory := pdFirst (g.map (·.productCategory))
    unitPrice := 0
    dataSource := "SAP_BW" }

/-- `bw_data.groupby('ProductCode').agg(...)` of `process_product_data`. -/
def bwProductRollup (bw : List BwRow) : List ProdRollupB :=
  (sortedKeys (bw.map (·.productCode))).map (mkBwProd bw)

/-- A row of `combined_products = pd.concat(product_data)`. -/
structure CombProd where
  productCode : String
  totalQuantitySold : Rat
  totalSalesAmount : Rat
  unitPrice : Option Rat
  productCategory : Option String
  dataSource : String
deriving DecidableEq, Repr

/-- An ECC product rollup row aligned to the combined column set. -/
def eccProdToComb (r : ProdRollupE) : CombProd :=
  { productCode := r.productCode
    totalQuantitySold := r.totalQuantitySold
    totalSalesAmount := r.totalSalesAmount
    unitPrice := r.unitPrice
    productCategory := none
    dataSource := r.dataSource }

/-- A BW product rollup row aligned to the combined column set. -/
def bwProdToComb (r : ProdRollupB) : CombProd :=
  { productCode := r.productCode
    totalQuantitySold := r.totalQuantitySold
    totalSalesAmount := r.totalSalesAmount
    unitPrice := some r.unitPrice
    productCategory := r.productCategory
    dataSource := r.dataSource }

/-- A reconciled product row (`final_products` with metadata). -/
structure Product where
  productCode : String
  totalQuantitySold : Rat
  totalSalesAmount : Rat
  unitPrice : Option Rat
  productCategory : Option String
  createdDate : Int
  updatedDate : Int
  isActive : Bool
deriving DecidableEq, Repr

/-- The merged product row for one group key of the final aggregation: sums
of the quantity and amount columns, MEAN of the per-source `UnitPrice`
values, first non-null `ProductCategory`, stamped with `now`. -/
def mkFinalProd (rows : List CombProd) (now : Int) (k : String) : Product :=
  let g := rows.filter (fun r => r.productCode == k)
  { productCode := k
    totalQuantitySold := (g.map (·.totalQuantitySold)).sum
    totalSalesAmount := (g.map (·.totalSalesAmount)).sum
    unitPrice := pdMean (g.map (·.unitPrice))
    productCategory := pdFirst (g.map (·.productCategory))
    createdDate := now
    updatedDate := now
    isActive := true }

/-- `combined_products.groupby('ProductCode').agg(...)` plus metadata. -/
def finalProductAgg (rows : List CombProd) (now : Int) : List Product :=
  (sortedKeys (rows.map (·.productCode))).map (mkFinalProd rows now)

/-- `SapDataProcessor.process_product_data`.  The final `agg` names the
`ProductCategory` column, which exists in `combined_products` only when the
BW branch contributed, so with a non-empty ECC input and an empty BW input
pandas raises a `KeyError`, which the function re-raises. -/
def processProductData (ecc : List EccRow) (bw : List BwRow) (now : Int) :
    Except String (List Product) :=
  let productData : List (List CombProd) :=
    (if ecc.isEmpty then [] else [(eccProductRollup ecc).map eccProdToComb])
      ++ (if bw.isEmpty then [] else [(bwProductRollup bw).map bwProdToComb])
  if productData.isEmpty then Except.ok []
  else
    let combined := productData.flatten
    if bw.isEmpty then Except.error "KeyError: ProductCategory"
    else Except.ok (finalProductAgg combined now)

/-- A reconciled sale row (`combined_sales` with metadata). -/
structure Sale where
  customerID : String
  productCode : String
  orderNumber : Option String
  salesDate : Option Int
  salesAmount : Option Rat
  salesQuantity : Option Rat
  unitPrice : PdVal
  region : Option String
  salesRep : Option String
  channel : Option String
  dataSource : String
  createdDate : Int
  isActive : Bool
deriving DecidableEq, Repr

/-- The ECC branch of `process_sales_data`: select and rename the order-line
columns, add `DataSource = 'SAP_ECC'` and `Channel = 'Direct'`
(metadata is stamped later, after the concat). -/
def eccSale (r : EccRow) : Sale :=
  { customerID := r.customerID
    productCode := r.productCode
    orderNumber := r.orderNumber
    salesDate := r.orderDate
    salesAmount := r.totalAmount
    salesQuantity := r.quantity
    unitPrice := toPdVal r.unitPrice
    region := r.region
    salesRep := r.salesRep
    channel := some "Direct"
    dataSource := "SAP_ECC"
    createdDate := 0
    isActive := false }

/-- The BW branch of `process_sales_data`: select the summary columns, add a
null `OrderNumber`, the derived `UnitPrice = SalesAmount / SalesQuantity`
(pandas element-wise division), and `DataSource = 'SAP_BW'`. -/
def bwSale (r : BwRow) : Sale :=
  { customerID := r.customerID
    productCode := r.productCode
    orderNumber := none
    salesDate := r.salesDate
    salesAmount := r.salesAmount
    salesQuantity := r.salesQuantity
    unitPrice := pdDiv r.salesAmount r.salesQuantity
    region := r.region
    salesRep := r.salesRep
    channel := r.channel
    dataSource := "SAP_BW"
    createdDate := 0
    isActive := false }

/-- `SapDataProcessor.process_sales_data`: relabel each non-empty source,
concatenate, then stamp `CreatedDate = now` and `IsActive = true` on the
combined frame.  No merge stage and no further arithmetic. -/
def processSalesData (ecc : List EccRow) (bw : List BwRow) (now : Int) :
    Except String (List Sale) :=
  let salesData : List (List Sale) :=
    (if ecc.isEmpty then [] else [ecc.map eccSale])
      ++ (if bw.isEmpty then [] else [bw.map bwSale])
  if salesData.isEmpty then Except.ok []
  else
    Except.ok (salesData.flatten.map
      (fun s => { s with createdDate := now, isActive := true }))

/-- The external collaborators of the orchestrator `process_sap_data`:
the two raw reads and the persistence write, each either succeeding with a
value or raising. -/
structure EtlEnv where
  eccRead : Except String (List EccRow)
  bwRead : Except String (List BwRow)
  writeResult : List Customer → List Product → List Sale → Except String Unit

/-- The six stages of `process_sap_data`, in source order. -/
def etlStages : List String :=
  ["read_ecc", "read_bw", "reconcile_customers", "reconcile_products",
   "reconcile_sales", "write"]

/-- The success summary string of `process_sap_data`. -/
def etlSummary (c p s : Nat) : String :=
  "Successfully processed " ++ toString c ++ " customers, " ++ toString p ++
    " products, and " ++ toString s ++ " sales records"

/-- The orchestrator `process_sap_data`, instrumented with the list of stages
it has started: read ECC, read BW, reconcile customers, products, sales, then
write; the first raising stage aborts the rest and its error is re-raised. -/
def processSapData (env : EtlEnv) (now : Int) :
    List String × Except String String :=
  match env.eccRead with
  | .error e => (etlStages.take 1, .error e)
  | .ok ecc =>
    match env.bwRead with
    | .error e => (etlStages.take 2, .error e)
    | .ok bw =>
      match processCustomerData ecc bw now with
      | .error e => (etlStages.take 3, .error e)
      | .ok customers =>
        match processProductData ecc bw now with
        | .error e => (etlStages.take 4, .error e)
        | .ok products =>
          match processSalesData ecc bw now with
          | .error e => (etlStages.take 5, .error e)
          | .ok sales =>
            match env.writeResult customers products sales with
            | .error e => (etlStages, .error e)
            | .ok _ =>
              (etlStages,
               .ok (etlSummary customers.length products.length sales.length))

/-- A search document (opaque payload; only identity and count matter to the
control flow of `update_ai_search.py`). -/
abbrev Doc := Nat

/-- The external collaborators of `AISearchService`: the index
create-or-update call, the index clear, the three document queries, and the
per-batch upload call, each either succeeding or raising. -/
structure SearchEnv where
  createResult : Except String Unit
  clearResult : Except String Unit
  customerDocs : Except String (List Doc)
  salesDocs : Except String (List Doc)
  productDocs : Except String (List Doc)
  uploadBatch : List Doc → Except String Unit

/-- Fuel-indexed batch slicing: while the list is non-empty, emit the next
`l[0:1000]` slice and continue after it.  One unit of fuel is spent per
batch; `fuel = l.length` is always enough since a batch is non-empty. -/
def chunksFuel {α : Type} : Nat → List α → List (List α)
  | _, [] => []
  | 0, _ :: _ => []
  | f + 1, d :: ds => (d :: ds).take 1000 :: chunksFuel f ((d :: ds).drop 1000)

/-- The batch slices `documents[i:i+1000]` for `i in range(0, len, 1000)`. -/
def chunks1000 {α : Type} (l : List α) : List (List α) :=
  chunksFuel l.length l

/-- `AISearchService.create_search_index`: true on success, false when the
underlying call raises (the exception is caught). -/
def createSearchIndex (env : SearchEnv) : Bool :=
  match env.createResult with
  | .ok _ => true
  | .error _ => false

/-- `AISearchService.clear_index`: true on success, false when the
underlying calls raise (the exception is caught). -/
def clearIndex (env : SearchEnv) : Bool :=
  match env.clearResult with
  | .ok _ => true
  | .error _ => false

/-- `AISearchService.get_customer_documents`: the retrieved documents, or an
EMPTY list when retrieval raises (the exception is caught). -/
def getCustomerDocuments (env : SearchEnv) : List Doc :=
  match env.customerDocs with
  | .ok d => d
  | .error _ => []

/-- `AISearchService.get_sales_documents`: documents, or `[]` on a caught
retrieval error. -/
def getSalesDocuments (env : SearchEnv) : List Doc :=
  match env.salesDocs with
  | .ok d => d
  | .error _ => []

/-- `AISearchService.get_product_documents`: documents, or `[]` on a caught
retrieval error. -/
def getProductDocuments (env : SearchEnv) : List Doc :=
  match env.productDocs with
  | .ok d => d
  | .error _ => []

/-- `AISearchService.upload_documents`: upload the batches of 1000 in order;
true unless some batch call raises (per-document failures inside a batch
result are only logged and do not affect the return value). -/
def uploadDocuments (env : SearchEnv) (docs : List Doc) : Bool :=
  (chunks1000 docs).all (fun b => (env.uploadBatch b).isOk)

/-- The `all_documents` accumulator of `update_search_index`: customer,
sales, then product documents, in that order. -/
def allSearchDocuments (env : SearchEnv) : List Doc :=
  getCustomerDocuments env ++ getSalesDocuments env ++ getProductDocuments env

/-- `AISearchService.update_search_index`: the returned status string. -/
def updateSearchIndex (env : SearchEnv) : String :=
  if createSearchIndex env = false then "Failed to create/update search index"
  else if clearIndex env = false then "Failed to clear existing documents"
  else if (allSearchDocuments env).isEmpty then "No documents found to upload"
  else if uploadDocuments env (allSearchDocuments env) then
    "Successfully updated search index with " ++
      toString (allSearchDocuments env).length ++ " documents"
  else "Failed to upload documents to search index"

/-- The module entry point `update_ai_search`. -/
def updateAiSearch (env : SearchEnv) : String :=
  updateSearchIndex env

/-- What the spec calls a descriptive failure string of the index update:
one of the fixed failure messages or a caught-exception report.
(Spec-side predicate, used to compare the spec claim with the code.) -/
def specFailureString (s : String) : Bool :=
  strEq s "Failed to create/update search index" ||
  strEq s "Failed to clear existing documents" ||
  strEq s "Failed to upload documents to search index" ||
  strStartsWith "Error updating search index: " s

/-- `process_customer_data` with the two input frames held in an explicit
mutable store: pandas `groupby(...).agg(...)`, `reset_index`, `concat` and
the metadata column assignments all allocate or modify fresh frames, so the
computation only reads the store. -/
def processCustomerDataSt (now : Int) :
    StateM (List EccRow × List BwRow) (Except String (List Customer)) := do
  let s ← get
  pure (processCustomerData s.1 s.2 now)

/-- `process_product_data` with the input frames in an explicit store. -/
def processProductDataSt (now : Int) :
    StateM (List EccRow × List BwRow) (Except String (List Product)) := do
  let s ← get
  pure (processProductData s.1 s.2 now)

/-- `process_sales_data` with the input frames in an explicit store: the
column relabelings and assignments happen on `ecc_data[[...]].copy()` and
`bw_data[[...]].copy()` (list-selection followed by `.copy()`), never on the
input frames themselves. -/
def processSalesDataSt (now : Int) :
    StateM (List EccRow × List BwRow) (Except String (List Sale)) := do
  let s ← get
  pure (processSalesData s.1 s.2 now)

/-- Pandas `max` of two nullable values (nulls skipped). -/
def optMax : Option Int → Option Int → Option Int
  | none, b => b
  | some x, none => some x
  | some x, some y => some (max x y)

/-- The merged customer row expected for an ECC-only customer: every rollup
field carried through unchanged, a null segment, and fresh metadata. -/
def expectedCustE (now : Int) (r : CustRollupE) : Customer :=
  { customerID := r.customerID
    totalOrders := r.totalOrders
    totalSalesAmount := r.totalSalesAmount
    lastOrderDate := r.lastOrderDate
    region := r.region
    salesRep := r.salesRep
    customerSegment := none
    createdDate := now
    updatedDate := now
    isActive := true }

/-- The merged customer row expected for a BW-only customer: every rollup
field carried through unchanged and fresh metadata. -/
def expectedCustB (now : Int) (r : CustRollupB) : Customer :=
  { customerID := r.customerID
    totalOrders := r.totalOrders
    totalSalesAmount := r.totalSalesAmount
    lastOrderDate := r.lastOrderDate
    region := r.region
    salesRep := r.salesRep
    customerSegment := r.customerSegment
    createdDate := now
    updatedDate := now
    isActive := true }

/-- The concatenated frame `combined_customers` built from the two per-source
rollups (both sources non-empty). -/
def combCustFrame (ecc : List EccRow) (bw : List BwRow) : List CombCust :=
  (eccCustomerRollup ecc).map eccCustToComb ++ (bwCustomerRollup bw).map bwCustToComb

/-- The concatenated frame `combined_products` built from the two per-source
rollups (both sources non-empty). -/
def combProdFrame (ecc : List EccRow) (bw : List BwRow) : List CombProd :=
  (eccProductRollup ecc).map eccProdToComb ++ (bwProductRollup bw).map bwProdToComb

end SapPipeline

namespace SapPipeline

/-- A sample ECC order line: customer C1 buys one unit of P1 at unit price
10 on order O1 for a total amount of 100. -/
def eccRowEx : EccRow :=
  { customerID := "C1", orderNumber := some "O1", orderDate := some 10,
    productCode := "P1", quantity := some 1, unitPrice := some 10,
    totalAmount := some 100, status := some "OK", salesRep := some "alice",
    region := some "EU", processedDate := some 0 }

/-- A sample BW summary row: customer C1, product P1, sales amount 50 for
quantity 5. -/
def bwRowEx : BwRow :=
  { customerID := "C1", productCode := "P1", salesAmount := some 50,
    salesQuantity := some 5, salesDate := some 20, salesRep := some "bob",
    region := some "US", channel := some "Web", productCategory := some "cat",
    customerSegment := some "seg", processedDate := some 0 }

/-- A BW summary row with `SalesQuantity = 0` and a positive sales amount. -/
def bwRowZeroQty : BwRow :=
  { bwRowEx with salesQuantity := some 0 }

/-- A BW summary row for a customer id (`C9`) that no ECC row mentions. -/
def bwRowDisjoint : BwRow :=
  { bwRowEx with customerID := "C9" }

/-- The sale row produced by the BW branch for `bwRowZeroQty`: dividing the
positive sales amount 50 by the zero quantity yields IEEE `+inf`. -/
def saleOutZeroQty : Sale :=
  { customerID := "C1", productCode := "P1", orderNumber := none,
    salesDate := some 20, salesAmount := some 50, salesQuantity := some 0,
    unitPrice := PdVal.posInf, region := some "US", salesRep := some "bob",
    channel := some "Web", dataSource := "SAP_BW", createdDate := 7,
    isActive := true }

/-- The merged product row produced for `eccRowEx` and `bwRowEx`. -/
def prodOutEx : Product :=
  { productCode := "P1", totalQuantitySold := 6, totalSalesAmount := 150,
    unitPrice := some 5, productCategory := some "cat", createdDate := 7,
    updatedDate := 7, isActive := true }

/-- An ETL environment where both reads succeed with empty slices and the
write succeeds. -/
def etlEnvEx : EtlEnv :=
  { eccRead := Except.ok [], bwRead := Except.ok [],
    writeResult := fun _ _ _ => Except.ok () }

/-- A search environment where index creation, clearing and upload succeed,
the sales query returns one document, the product query returns none, and
the CUSTOMER document retrieval fails. -/
def searchEnvRetrievalFail : SearchEnv :=
  { createResult := Except.ok (), clearResult := Except.ok (),
    customerDocs := Except.error "db down",
    salesDocs := Except.ok [0], productDocs := Except.ok [],
    uploadBatch := fun _ => Except.ok () }

/-- A search environment where the index-creation call raises. -/
def searchEnvCreateFail : SearchEnv :=
  { createResult := Except.error "index service down", clearResult := Except.ok (),
    customerDocs := Except.ok [], salesDocs := Except.ok [], productDocs := Except.ok [],
    uploadBatch := fun _ => Except.ok () }

end SapPipeline

namespace SapPipeline

lemma mem_dedupStr {a : String} : ∀ {l : List String}, a ∈ dedupStr l ↔ a ∈ l
  | [] => Iff.rfl
  | x :: xs => by
    by_cases hx : x ∈ xs
    · rw [dedupStr, if_pos (by simpa using hx), mem_dedupStr (l := xs)]
      simp only [List.mem_cons]
      constructor
      · exact fun h => Or.inr h
      · rintro (rfl | h)
        · exact hx
        · exact h
    · rw [dedupStr, if_neg (by simpa using hx)]
      simp [mem_dedupStr (l := xs)]

lemma nodup_dedupStr : ∀ l : List String, (dedupStr l).Nodup
  | [] => List.nodup_nil
  | x :: xs => by
    by_cases hx : x ∈ xs
    · rw [dedupStr, if_pos (by simpa using hx)]
      exact nodup_dedupStr xs
    · rw [dedupStr, if_neg (by simpa using hx)]
      have : x ∉ dedupStr xs := fun h => hx (mem_dedupStr.1 h)
      exact List.nodup_cons.2 ⟨this, nodup_dedupStr xs⟩

lemma insertStr_perm (s : String) :
    ∀ l : List String, List.Perm (insertStr s l) (s :: l)
  | [] => List.Perm.refl _
  | x :: xs => by
    by_cases h : strLe s x
    · simp [insertStr, h]
    · simp only [insertStr, if_neg h]
      exact ((insertStr_perm s xs).cons x).trans (List.Perm.swap s x xs)

lemma sortStr_perm : ∀ l : List String, List.Perm (sortStr l) l
  | [] => List.Perm.refl _
  | x :: xs => (insertStr_perm x (sortStr xs)).trans ((sortStr_perm xs).cons x)

lemma mem_sortedKeys {k : String} {l : List String} :
    k ∈ sortedKeys l ↔ k ∈ l :=
  ((sortStr_perm (dedupStr l)).mem_iff).trans mem_dedupStr

lemma nodup_sortedKeys (l : List String) : (sortedKeys l).Nodup :=
  ((sortStr_perm (dedupStr l)).nodup_iff).2 (nodup_dedupStr l)

lemma filter_map_keyed {α : Type} (key : α → String) (mk : String → α)
    (hk : ∀ s, key (mk s) = s) :
    ∀ (ks : List String), ks.Nodup → ∀ k : String,
      (ks.map mk).filter (fun r => key r == k) = if k ∈ ks then [mk k] else []
  | [], _, k => by simp
  | a :: ks, h, k => by
    have hks : ks.Nodup := h.of_cons
    have hrec := filter_map_keyed key mk hk ks hks k
    by_cases hak : a = k
    · subst hak
      have hnot : a ∉ ks := (List.nodup_cons.1 h).1
      simp [List.filter_cons, hk, hrec, hnot]
    · have hbeq : (key (mk a) == k) = false := by
        simp [hk, hak]
      have hka : ¬k = a := fun h => hak h.symm
      simp [List.filter_cons, hbeq, hrec, hka]

lemma pdMax_single (a : Option Int) : pdMax [a] = a := by
  cases a <;> simp [pdMax]

lemma pdFirst_single {α : Type} (a : Option α) : pdFirst [a] = a := by
  cases a <;> simp [pdFirst]

lemma pdMax_pair (a b : Option Int) : pdMax [a, b] = optMax a b := by
  cases a <;> cases b <;> simp [pdMax, optMax]

lemma processCustomerData_ok (ecc : List EccRow) (bw : List BwRow) (now : Int)
    (hecc : ecc ≠ []) (hbw : bw ≠ []) :
    processCustomerData ecc bw now =
      Except.ok (finalCustomerAgg (combCustFrame ecc bw) now) := by
  simp [processCustomerData, combCustFrame, hecc, hbw]

lemma processProductData_ok (ecc : List EccRow) (bw : List BwRow) (now : Int)
    (hecc : ecc ≠ []) (hbw : bw ≠ []) :
    processProductData ecc bw now =
      Except.ok (finalProductAgg (combProdFrame ecc bw) now) := by
  simp [processProductData, combProdFrame, hecc, hbw]

lemma combCust_filter (ecc : List EccRow) (bw : List BwRow) (k : String) :
    (combCustFrame ecc bw).filter (fun r => r.customerID == k) =
      (if k ∈ sortedKeys (ecc.map (·.customerID))
        then [eccCustToComb (mkEccCust ecc k)] else [])
      ++ (if k ∈ sortedKeys (bw.map (·.customerID))
        then [bwCustToComb (mkBwCust bw k)] else []) := by
  unfold combCustFrame eccCustomerRollup bwCustomerRollup
  rw [List.filter_append, List.map_map, List.map_map,
    filter_map_keyed (fun r => r.customerID) (eccCustToComb ∘ mkEccCust ecc)
      (fun s => rfl) _ (nodup_sortedKeys _) k,
    filter_map_keyed (fun r => r.customerID) (bwCustToComb ∘ mkBwCust bw)
      (fun s => rfl) _ (nodup_sortedKeys _) k]
  simp [Function.comp]

lemma combProd_filter (ecc : List EccRow) (bw : List BwRow) (k : String) :
    (combProdFrame ecc bw).filter (fun r => r.productCode == k) =
      (if k ∈ sortedKeys (ecc.map (·.productCode))
        then [eccProdToComb (mkEccProd ecc k)] else [])
      ++ (if k ∈ sortedKeys (bw.map (·.productCode))
        then [bwProdToComb (mkBwProd bw k)] else []) := by
  unfold combProdFrame eccProductRollup bwProductRollup
  rw [List.filter_append, List.map_map, List.map_map,
    filter_map_keyed (fun r => r.productCode) (eccProdToComb ∘ mkEccProd ecc)
      (fun s => rfl) _ (nodup_sortedKeys _) k,
    filter_map_keyed (fun r => r.productCode) (bwProdToComb ∘ mkBwProd bw)
      (fun s => rfl) _ (nodup_sortedKeys _) k]
  simp [Function.comp]

lemma combCust_map_key (ecc : List EccRow) (bw : List BwRow) :
    (combCustFrame ecc bw).map (·.customerID) =
      sortedKeys (ecc.map (·.customerID)) ++ sortedKeys (bw.map (·.customerID)) := by
  unfold combCustFrame eccCustomerRollup bwCustomerRollup
  rw [List.map_append]
  simp only [List.map_map]
  congr 1
  · exact (List.map_congr_left fun a _ => rfl).trans (List.map_id _)
  · exact (List.map_congr_left fun a _ => rfl).trans (List.map_id _)

lemma mem_eccCustomerRollup {ecc : List EccRow} {re : CustRollupE} :
    re ∈ eccCustomerRollup ecc ↔
      ∃ k, k ∈ sortedKeys (ecc.map (·.customerID)) ∧ re = mkEccCust ecc k := by
  simp [eccCustomerRollup, List.mem_map, eq_comm]

lemma mem_bwCustomerRollup {bw : List BwRow} {rb : CustRollupB} :
    rb ∈ bwCustomerRollup bw ↔
      ∃ k, k ∈ sortedKeys (bw.map (·.customerID)) ∧ rb = mkBwCust bw k := by
  simp [bwCustomerRollup, List.mem_map, eq_comm]

lemma mem_eccProductRollup {ecc : List EccRow} {re : ProdRollupE} :
    re ∈ eccProductRollup ecc ↔
      ∃ k, k ∈ sortedKeys (ecc.map (·.productCode)) ∧ re = mkEccProd ecc k := by
  simp [eccProductRollup, List.mem_map, eq_comm]

lemma mem_bwProductRollup {bw : List BwRow} {rb : ProdRollupB} :
    rb ∈ bwProductRollup bw ↔
      ∃ k, k ∈ sortedKeys (bw.map (·.productCode)) ∧ rb = mkBwProd bw k := by
  simp [bwProductRollup, List.mem_map, eq_comm]

lemma source_ne_nil {α : Type} {f : α → String} {l : List α} {k : String}
    (h : k ∈ sortedKeys (l.map f)) : l ≠ [] := by
  rcases List.mem_map.1 (mem_sortedKeys.1 h) with ⟨r, hr, _⟩
  exact List.ne_nil_of_mem hr

lemma mkFinalCust_totalOrders (rows : List CombCust) (now : Int) (k : String) :
    (mkFinalCust rows now k).totalOrders =
      ((rows.filter (fun r => r.customerID == k)).map (·.totalOrders)).sum := rfl

lemma mkFinalCust_totalSalesAmount (rows : List CombCust) (now : Int) (k : String) :
    (mkFinalCust rows now k).totalSalesAmount =
      ((rows.filter (fun r => r.customerID == k)).map (·.totalSalesAmount)).sum := rfl

lemma mkFinalCust_lastOrderDate (rows : List CombCust) (now : Int) (k : String) :
    (mkFinalCust rows now k).lastOrderDate =
      pdMax ((rows.filter (fun r => r.customerID == k)).map (·.lastOrderDate)) := rfl

lemma mkFinalCust_region (rows : List CombCust) (now : Int) (k : String) :
    (mkFinalCust rows now k).region =
      pdFirst ((rows.filter (fun r => r.customerID == k)).map (·.region)) := rfl

lemma mkFinalCust_salesRep (rows : List CombCust) (now : Int) (k : String) :
    (mkFinalCust rows now k).salesRep =
      pdFirst ((rows.filter (fun r => r.customerID == k)).map (·.salesRep)) := rfl

lemma mkFinalCust_customerSegment (rows : List CombCust) (now : Int) (k : String) :
    (mkFinalCust rows now k).customerSegment =
      pdFirst ((rows.filter (fun r => r.customerID == k)).map (·.customerSegment)) := rfl

lemma mkFinalProd_totalQuantitySold (rows : List CombProd) (now : Int) (k : String) :
    (mkFinalProd rows now k).totalQuantitySold =
      ((rows.filter (fun r => r.productCode == k)).map (·.totalQuantitySold)).sum := rfl

lemma mkFinalProd_totalSalesAmount (rows : List CombProd) (now : Int) (k : String) :
    (mkFinalProd rows now k).totalSalesAmount =
      ((rows.filter (fun r => r.productCode == k)).map (·.totalSalesAmount)).sum := rfl

lemma mkFinalProd_unitPrice (rows : List CombProd) (now : Int) (k : String) :
    (mkFinalProd rows now k).unitPrice =
      pdMean ((rows.filter (fun r => r.productCode == k)).map (·.unitPrice)) := rfl

lemma mkFinalProd_productCategory (rows : List CombProd) (now : Int) (k : String) :
    (mkFinalProd rows now k).productCategory =
      pdFirst ((rows.filter (fun r => r.productCode == k)).map (·.productCategory)) := rfl

lemma combProd_map_key (ecc : List EccRow) (bw : List BwRow) :
    (combProdFrame ecc bw).map (·.productCode) =
      sortedKeys (ecc.map (·.productCode)) ++ sortedKeys (bw.map (·.productCode)) := by
  unfold combProdFrame eccProductRollup bwProductRollup
  rw [List.map_append]
  simp only [List.map_map]
  congr 1
  · exact (List.map_congr_left fun a _ => rfl).trans (List.map_id _)
  · exact (List.map_congr_left fun a _ => rfl).trans (List.map_id _)

end SapPipeline

namespace SapPipeline

/-- Claim C3: for every customer id present in both the ECC and BW inputs of
customer reconciliation, the output row's total orders and total sales
amount equal the sums of the two per-source rollups, and the last order
date equals the max of the two.  (The spec scenario — ECC gives C1 one
order with total amount 100, BW gives C1 sales amount 50, yielding
total orders 1 and total sales amount 150 — is instantiated in the
witness.) -/
theorem claim_C3 (ecc : List EccRow) (bw : List BwRow) (now : Int)
    (re : CustRollupE) (rb : CustRollupB)
    (hre : re ∈ eccCustomerRollup ecc) (hrb : rb ∈ bwCustomerRollup bw)
    (hk : re.customerID = rb.customerID) :
    ∃ out, processCustomerData ecc bw now = Except.ok out ∧
      ∃ o ∈ out, o.customerID = re.customerID ∧
        o.totalOrders = re.totalOrders + rb.totalOrders ∧
        o.totalSalesAmount = re.totalSalesAmount + rb.totalSalesAmount ∧
        o.lastOrderDate = optMax re.lastOrderDate rb.lastOrderDate := by
  rcases mem_eccCustomerRollup.1 hre with ⟨kE, hkE, rfl⟩
  rcases mem_bwCustomerRollup.1 hrb with ⟨kB, hkB, rfl⟩
  have hkk : kE = kB := hk
  subst hkk
  have hecc : ecc ≠ [] := source_ne_nil hkE
  have hbw : bw ≠ [] := source_ne_nil hkB
  have hfil := combCust_filter ecc bw kE
  rw [if_pos hkE, if_pos hkB] at hfil
  refine ⟨_, processCustomerData_ok ecc bw now hecc hbw,
    mkFinalCust (combCustFrame ecc bw) now kE, ?_, rfl, ?_, ?_, ?_⟩
  · unfold finalCustomerAgg
    exact List.mem_map_of_mem _ (mem_sortedKeys.2 (by
      rw [combCust_map_key]; exact List.mem_append_left _ hkE))
  · rw [mkFinalCust_totalOrders, hfil]
    simp [eccCustToComb, bwCustToComb]
  · rw [mkFinalCust_totalSalesAmount, hfil]
    simp only [List.singleton_append, List.map_cons, List.map_nil,
      List.sum_cons, List.sum_nil, eccCustToComb, bwCustToComb, add_zero]
  · rw [mkFinalCust_lastOrderDate, hfil]
    simp only [List.singleton_append, List.map_cons, List.map_nil,
      eccCustToComb, bwCustToComb]
    exact pdMax_pair _ _

end SapPipeline

namespace SapPipeline

/-- Witness for C3: the spec scenario.  ECC yields customer C1 with one
order of total amount 100; BW yields C1 with sales amount 50; the merged
row has total orders 1 and total sales amount 150. -/
theorem claim_C3_witness :
    (∃ out, processCustomerData [eccRowEx] [bwRowEx] 7 = Except.ok out ∧
      ∃ o ∈ out, o.customerID = (mkEccCust [eccRowEx] "C1").customerID ∧
        o.totalOrders =
          (mkEccCust [eccRowEx] "C1").totalOrders +
            (mkBwCust [bwRowEx] "C1").totalOrders ∧
        o.totalSalesAmount =
          (mkEccCust [eccRowEx] "C1").totalSalesAmount +
            (mkBwCust [bwRowEx] "C1").totalSalesAmount ∧
        o.lastOrderDate =
          optMax (mkEccCust [eccRowEx] "C1").lastOrderDate
            (mkBwCust [bwRowEx] "C1").lastOrderDate) ∧
    (mkEccCust [eccRowEx] "C1").totalOrders +
        (mkBwCust [bwRowEx] "C1").totalOrders = 1 ∧
    (mkEccCust [eccRowEx] "C1").totalSalesAmount +
        (mkBwCust [bwRowEx] "C1").totalSalesAmount = 150 := by
  have h1 : mkEccCust [eccRowEx] "C1" ∈ eccCustomerRollup [eccRowEx] := by
    exact mem_eccCustomerRollup.2 ⟨"C1", by decide, rfl⟩
  have h2 : mkBwCust [bwRowEx] "C1" ∈ bwCustomerRollup [bwRowEx] := by
    exact mem_bwCustomerRollup.2 ⟨"C1", by decide, rfl⟩
  refine ⟨claim_C3 [eccRowEx] [bwRowEx] 7 _ _ h1 h2 rfl, by decide, ?_⟩
  norm_num [mkEccCust, mkBwCust, pdSum, eccRowEx, bwRowEx,
    List.filterMap_cons, id_eq]

end SapPipeline

namespace SapPipeline

lemma pdMean_pair_zero (a : Option Rat) :
    pdMean [a, some 0] =
      some (match a with | some m => m / 2 | none => (0 : Rat)) := by
  cases a with
  | none =>
    show pdMean [none, some 0] = some 0
    simp [pdMean, List.filterMap_cons, id_eq]
  | some m =>
    show pdMean [some m, some 0] = some (m / 2)
    simp only [pdMean, List.filterMap_cons, id_eq, List.filterMap_nil,
      List.sum_cons, List.sum_nil, add_zero, List.length_cons, List.length_nil]
    norm_num

/-- Claim C1 (amended): for a product code present in both the ECC and BW
inputs, the merged unit price is the MEAN of the two per-source values —
the ECC rollup's mean line unit price (treated as absent when all ECC line
prices are null) and BW's constant 0 — so it equals half the ECC mean when
that mean exists and 0 otherwise; BW's zero contribution is averaged in,
not dropped. -/
theorem claim_C1 (ecc : List EccRow) (bw : List BwRow) (now : Int)
    (re : ProdRollupE) (rb : ProdRollupB)
    (hre : re ∈ eccProductRollup ecc) (hrb : rb ∈ bwProductRollup bw)
    (hk : re.productCode = rb.productCode) :
    ∃ out, processProductData ecc bw now = Except.ok out ∧
      ∃ o ∈ out, o.productCode = re.productCode ∧
        o.unitPrice =
          some (match re.unitPrice with | some m => m / 2 | none => (0 : Rat)) := by
  rcases mem_eccProductRollup.1 hre with ⟨kE, hkE, rfl⟩
  rcases mem_bwProductRollup.1 hrb with ⟨kB, hkB, rfl⟩
  have hkk : kE = kB := hk
  subst hkk
  have hecc : ecc ≠ [] := source_ne_nil hkE
  have hbw : bw ≠ [] := source_ne_nil hkB
  have hfil := combProd_filter ecc bw kE
  rw [if_pos hkE, if_pos hkB] at hfil
  refine ⟨_, processProductData_ok ecc bw now hecc hbw,
    mkFinalProd (combProdFrame ecc bw) now kE, ?_, rfl, ?_⟩
  · unfold finalProductAgg
    exact List.mem_map_of_mem _ (mem_sortedKeys.2 (by
      rw [combProd_map_key]; exact List.mem_append_left _ hkE))
  · rw [mkFinalProd_unitPrice, hfil]
    simp only [List.singleton_append, List.map_cons, List.map_nil,
      eccProdToComb, bwProdToComb]
    exact pdMean_pair_zero _

/-- Counterexample to C1 as stated: product P1 appears in both sources, the
ECC per-source rollup mean line unit price is 10, but the merged output's
unit price is 5 (the mean of 10 and BW's constant 0), not 10 — BW's
contribution is NOT dropped. -/
theorem claim_C1_counterexample :
    (mkEccProd [eccRowEx] "P1").unitPrice = some 10 ∧
    processProductData [eccRowEx] [bwRowEx] 7 = Except.ok [prodOutEx] ∧
    prodOutEx.unitPrice = some 5 ∧
    ¬(some (5 : Rat) = some (10 : Rat)) := by
  refine ⟨?_, ?_, rfl, by decide⟩
  · norm_num [mkEccProd, pdMean, eccRowEx, List.filterMap_cons, id_eq]
  · norm_num [processProductData, finalProductAgg, mkFinalProd, eccProductRollup,
      bwProductRollup, mkEccProd, mkBwProd, eccProdToComb, bwProdToComb, sortedKeys,
      dedupStr, sortStr, insertStr, strLe, charListLe, pdSum, pdMean, pdFirst,
      eccRowEx, bwRowEx, prodOutEx, Product.mk.injEq, List.filterMap_cons,
      List.filterMap_nil, id_eq, List.sum_cons, List.sum_nil, List.length]

/-- Witness for C1 (amended): for P1 in both sample sources with ECC mean
line unit price 10, the merged unit price is 10/2. -/
theorem claim_C1_witness :
    (∃ out, processProductData [eccRowEx] [bwRowEx] 7 = Except.ok out ∧
      ∃ o ∈ out, o.productCode = (mkEccProd [eccRowEx] "P1").productCode ∧
        o.unitPrice =
          some (match (mkEccProd [eccRowEx] "P1").unitPrice with
            | some m => m / 2 | none => (0 : Rat))) ∧
    (mkEccProd [eccRowEx] "P1").unitPrice = some 10 := by
  have h1 : mkEccProd [eccRowEx] "P1" ∈ eccProductRollup [eccRowEx] :=
    mem_eccProductRollup.2 ⟨"P1", by decide, rfl⟩
  have h2 : mkBwProd [bwRowEx] "P1" ∈ bwProductRollup [bwRowEx] :=
    mem_bwProductRollup.2 ⟨"P1", by decide, rfl⟩
  refine ⟨claim_C1 [eccRowEx] [bwRowEx] 7 _ _ h1 h2 rfl, ?_⟩
  norm_num [mkEccProd, pdMean, eccRowEx, List.filterMap_cons, id_eq]

end SapPipeline

namespace SapPipeline

lemma processSalesData_total (ecc : List EccRow) (bw : List BwRow) (now : Int) :
    ∃ out, processSalesData ecc bw now = Except.ok out := by
  unfold processSalesData
  by_cases he : ecc.isEmpty <;> by_cases hb : bw.isEmpty <;> simp [he, hb]

lemma processSalesData_eq (ecc : List EccRow) (bw : List BwRow) (now : Int)
    (hb : bw.isEmpty = false) :
    processSalesData ecc bw now = Except.ok
      (((if ecc.isEmpty then [] else [ecc.map eccSale])
          ++ [bw.map bwSale]).flatten.map
        (fun s => { s with createdDate := now, isActive := true })) := by
  unfold processSalesData
  rw [hb]
  have hne : ((if ecc.isEmpty then ([] : List (List Sale))
      else [ecc.map eccSale]) ++ [bw.map bwSale]).isEmpty = false := by
    by_cases he : ecc.isEmpty <;> simp [he]
  simp only [if_false, Bool.false_eq_true, hne]

lemma processSalesData_mem_bw (ecc : List EccRow) (bw : List BwRow) (now : Int)
    (r : BwRow) (hr : r ∈ bw) :
    ∃ out, processSalesData ecc bw now = Except.ok out ∧
      { bwSale r with createdDate := now, isActive := true } ∈ out := by
  have hb : bw.isEmpty = false := by
    simp only [List.isEmpty_eq_false_iff_exists_mem]
    exact ⟨r, hr⟩
  refine ⟨_, processSalesData_eq ecc bw now hb, ?_⟩
  apply List.mem_map_of_mem
  refine List.mem_flatten.2 ⟨bw.map bwSale, ?_, List.mem_map_of_mem _ hr⟩
  exact List.mem_append_right _ (by simp)

end SapPipeline

namespace SapPipeline

/-- Claim C2 (amended): for a BW input row with `SalesQuantity = 0`, the
derived unit price of the corresponding output sale is the IEEE result of
the unguarded division `SalesAmount / 0`: `+inf` for a positive amount,
`-inf` for a negative one, and `NaN` (pandas null) only when the amount is
0 or null.  No division error is ever raised — sales reconciliation
returns a result for every input. -/
theorem claim_C2 (ecc : List EccRow) (bw : List BwRow) (now : Int) (r : BwRow)
    (hr : r ∈ bw) (hq : r.salesQuantity = some 0) :
    (∃ out, processSalesData ecc bw now = Except.ok out ∧
      ∃ s ∈ out, s.dataSource = "SAP_BW" ∧
        s.unitPrice = (match r.salesAmount with
          | some a => if 0 < a then PdVal.posInf
              else if a < 0 then PdVal.negInf else PdVal.nan
          | none => PdVal.nan)) ∧
    ∀ (ecc2 : List EccRow) (bw2 : List BwRow) (now2 : Int),
      ∃ out2, processSalesData ecc2 bw2 now2 = Except.ok out2 := by
  constructor
  · obtain ⟨out, hout, hmem⟩ := processSalesData_mem_bw ecc bw now r hr
    refine ⟨out, hout, { bwSale r with createdDate := now, isActive := true },
      hmem, rfl, ?_⟩
    show (bwSale r).unitPrice = _
    show pdDiv r.salesAmount r.salesQuantity = _
    rw [hq]
    cases r.salesAmount with
    | none => rfl
    | some a => simp [pdDiv]
  · exact fun ecc2 bw2 now2 => processSalesData_total ecc2 bw2 now2

/-- Counterexample to C2 as stated: a BW sale fact with quantity 0 and a
POSITIVE amount (50) yields unit price `+inf`, which pandas does not treat
as null/undefined — the claimed null guard does not exist (though no error
is raised). -/
theorem claim_C2_counterexample :
    bwRowZeroQty.salesQuantity = some 0 ∧
    processSalesData [] [bwRowZeroQty] 7 = Except.ok [saleOutZeroQty] ∧
    saleOutZeroQty.unitPrice = PdVal.posInf ∧
    pdIsNA saleOutZeroQty.unitPrice = false := by
  refine ⟨rfl, ?_, rfl, rfl⟩
  rfl

/-- Witness for C2 (amended): the zero-quantity BW sample row yields `+inf`
and the reconciliation succeeds. -/
theorem claim_C2_witness :
    bwRowZeroQty ∈ [bwRowZeroQty] ∧ bwRowZeroQty.salesQuantity = some 0 ∧
    ((∃ out, processSalesData [] [bwRowZeroQty] 7 = Except.ok out ∧
      ∃ s ∈ out, s.dataSource = "SAP_BW" ∧
        s.unitPrice = (match bwRowZeroQty.salesAmount with
          | some a => if 0 < a then PdVal.posInf
              else if a < 0 then PdVal.negInf else PdVal.nan
          | none => PdVal.nan)) ∧
    ∀ (ecc2 : List EccRow) (bw2 : List BwRow) (now2 : Int),
      ∃ out2, processSalesData ecc2 bw2 now2 = Except.ok out2) :=
  ⟨List.mem_singleton.2 rfl, rfl,
    claim_C2 [] [bwRowZeroQty] 7 bwRowZeroQty (List.mem_singleton.2 rfl) rfl⟩

end SapPipeline

namespace SapPipeline

/-- Claim C6: with both source inputs empty, each of customer, product and
sales reconciliation returns an empty record set and raises no error. -/
theorem claim_C6 (now : Int) :
    processCustomerData [] [] now = Except.ok [] ∧
    processProductData [] [] now = Except.ok [] ∧
    processSalesData [] [] now = Except.ok [] :=
  ⟨rfl, rfl, rfl⟩

/-- Claim C5 fails on the code: with a non-empty ECC input and an empty BW
input, the final aggregation references the `CustomerSegment` (resp.
`ProductCategory`) column, which only the BW branch creates, so pandas
raises a `KeyError` and reconciliation produces NO row at all for the one
customer (resp. product) mentioned, instead of exactly one. -/
theorem claim_C5 :
    processCustomerData [eccRowEx] [] 0 =
      Except.error "KeyError: CustomerSegment" ∧
    processProductData [eccRowEx] [] 0 =
      Except.error "KeyError: ProductCategory" :=
  ⟨rfl, rfl⟩

end SapPipeline

namespace SapPipeline

lemma mkFinalCust_ecc_only (ecc : List EccRow) (bw : List BwRow) (now : Int)
    (k : String) (hkE : k ∈ sortedKeys (ecc.map (·.customerID)))
    (hkB : k ∉ sortedKeys (bw.map (·.customerID))) :
    mkFinalCust (combCustFrame ecc bw) now k = expectedCustE now (mkEccCust ecc k) := by
  have hfil := combCust_filter ecc bw k
  rw [if_pos hkE, if_neg hkB, List.append_nil] at hfil
  simp [mkFinalCust, expectedCustE, hfil, eccCustToComb, pdMax_single,
    pdFirst_single, pdFirst, Customer.mk.injEq]
  refine ⟨rfl, ?_, ?_⟩
  · cases h : (mkEccCust ecc k).region <;> simp [h]
  · cases h : (mkEccCust ecc k).salesRep <;> simp [h]

lemma mkFinalCust_bw_only (ecc : List EccRow) (bw : List BwRow) (now : Int)
    (k : String) (hkE : k ∉ sortedKeys (ecc.map (·.customerID)))
    (hkB : k ∈ sortedKeys (bw.map (·.customerID))) :
    mkFinalCust (combCustFrame ecc bw) now k = expectedCustB now (mkBwCust bw k) := by
  have hfil := combCust_filter ecc bw k
  rw [if_neg hkE, if_pos hkB, List.nil_append] at hfil
  simp [mkFinalCust, expectedCustB, hfil, bwCustToComb, pdMax_single,
    pdFirst_single, Customer.mk.injEq]
  rfl

/-- Claim C4: for non-empty ECC and BW customer inputs with disjoint
customer-id sets, the merged output is exactly the union of the two
per-source rollups, each row's fields carried through unchanged (ECC rows
get a null segment; both get fresh metadata). -/
theorem claim_C4 (ecc : List EccRow) (bw : List BwRow) (now : Int)
    (hecc : ecc ≠ []) (hbw : bw ≠ [])
    (hdisj : ∀ r ∈ ecc, ∀ s ∈ bw, r.customerID ≠ s.customerID) :
    ∃ out, processCustomerData ecc bw now = Except.ok out ∧
      (∀ re ∈ eccCustomerRollup ecc, expectedCustE now re ∈ out) ∧
      (∀ rb ∈ bwCustomerRollup bw, expectedCustB now rb ∈ out) ∧
      (∀ o ∈ out,
        (∃ re ∈ eccCustomerRollup ecc, o = expectedCustE now re) ∨
        (∃ rb ∈ bwCustomerRollup bw, o = expectedCustB now rb)) := by
  have hdk : ∀ k, k ∈ sortedKeys (ecc.map (·.customerID)) →
      k ∉ sortedKeys (bw.map (·.customerID)) := by
    intro k hkE hkB
    rcases List.mem_map.1 (mem_sortedKeys.1 hkE) with ⟨r, hr, hrk⟩
    rcases List.mem_map.1 (mem_sortedKeys.1 hkB) with ⟨s, hs, hsk⟩
    exact hdisj r hr s hs (hrk.trans hsk.symm)
  refine ⟨_, processCustomerData_ok ecc bw now hecc hbw, ?_, ?_, ?_⟩
  · intro re hre
    rcases mem_eccCustomerRollup.1 hre with ⟨k, hkE, rfl⟩
    rw [← mkFinalCust_ecc_only ecc bw now k hkE (hdk k hkE)]
    unfold finalCustomerAgg
    exact List.mem_map_of_mem _ (mem_sortedKeys.2 (by
      rw [combCust_map_key]; exact List.mem_append_left _ hkE))
  · intro rb hrb
    rcases mem_bwCustomerRollup.1 hrb with ⟨k, hkB, rfl⟩
    have hkE : k ∉ sortedKeys (ecc.map (·.customerID)) := fun h => hdk k h hkB
    rw [← mkFinalCust_bw_only ecc bw now k hkE hkB]
    unfold finalCustomerAgg
    exact List.mem_map_of_mem _ (mem_sortedKeys.2 (by
      rw [combCust_map_key]; exact List.mem_append_right _ hkB))
  · intro o ho
    unfold finalCustomerAgg at ho
    rcases List.mem_map.1 ho with ⟨k, hk, rfl⟩
    have hk2 := mem_sortedKeys.1 hk
    rw [combCust_map_key] at hk2
    rcases List.mem_append.1 hk2 with hkE | hkB
    · left
      exact ⟨mkEccCust ecc k, List.mem_map_of_mem _ hkE,
        mkFinalCust_ecc_only ecc bw now k hkE (hdk k hkE)⟩
    · right
      have hkE : k ∉ sortedKeys (ecc.map (·.customerID)) := fun h => hdk k h hkB
      exact ⟨mkBwCust bw k, List.mem_map_of_mem _ hkB,
        mkFinalCust_bw_only ecc bw now k hkE hkB⟩

end SapPipeline

namespace SapPipeline

/-- Witness for C4: one ECC customer (C1) and one disjoint BW customer (C9)
merge into the union of the two rollups with fields carried through. -/
theorem claim_C4_witness :
    ([eccRowEx] : List EccRow) ≠ [] ∧ ([bwRowDisjoint] : List BwRow) ≠ [] ∧
    (∀ r ∈ [eccRowEx], ∀ s ∈ [bwRowDisjoint], r.customerID ≠ s.customerID) ∧
    (∃ out, processCustomerData [eccRowEx] [bwRowDisjoint] 7 = Except.ok out ∧
      (∀ re ∈ eccCustomerRollup [eccRowEx], expectedCustE 7 re ∈ out) ∧
      (∀ rb ∈ bwCustomerRollup [bwRowDisjoint], expectedCustB 7 rb ∈ out) ∧
      (∀ o ∈ out,
        (∃ re ∈ eccCustomerRollup [eccRowEx], o = expectedCustE 7 re) ∨
        (∃ rb ∈ bwCustomerRollup [bwRowDisjoint], o = expectedCustB 7 rb))) :=
  ⟨List.cons_ne_nil _ _, List.cons_ne_nil _ _, by decide,
    claim_C4 [eccRowEx] [bwRowDisjoint] 7 (List.cons_ne_nil _ _)
      (List.cons_ne_nil _ _) (by decide)⟩

end SapPipeline

namespace SapPipeline

/-- Claim C7: the orchestrator runs read ECC, read BW, reconcile customers,
products, sales, then write, in that order; on success the started-stage
list is complete and the result is the summary string with the three row
counts; on failure the error of the first failing stage propagates
unchanged and no later stage (in particular the write) is started. -/
theorem claim_C7 (env : EtlEnv) (now : Int) :
    (∀ r, (processSapData env now).2 = Except.ok r →
      (processSapData env now).1 = etlStages ∧
      ∃ ecc bw customers products sales,
        env.eccRead = Except.ok ecc ∧ env.bwRead = Except.ok bw ∧
        processCustomerData ecc bw now = Except.ok customers ∧
        processProductData ecc bw now = Except.ok products ∧
        processSalesData ecc bw now = Except.ok sales ∧
        env.writeResult customers products sales = Except.ok () ∧
        r = etlSummary customers.length products.length sales.length) ∧
    (∀ e, (processSapData env now).2 = Except.error e →
      (env.eccRead = Except.error e ∧
        (processSapData env now).1 = etlStages.take 1) ∨
      (env.bwRead = Except.error e ∧
        (processSapData env now).1 = etlStages.take 2) ∨
      (∃ ecc bw, env.eccRead = Except.ok ecc ∧ env.bwRead = Except.ok bw ∧
        processCustomerData ecc bw now = Except.error e ∧
        (processSapData env now).1 = etlStages.take 3) ∨
      (∃ ecc bw, env.eccRead = Except.ok ecc ∧ env.bwRead = Except.ok bw ∧
        processProductData ecc bw now = Except.error e ∧
        (processSapData env now).1 = etlStages.take 4) ∨
      (∃ ecc bw, env.eccRead = Except.ok ecc ∧ env.bwRead = Except.ok bw ∧
        processSalesData ecc bw now = Except.error e ∧
        (processSapData env now).1 = etlStages.take 5) ∨
      (∃ ecc bw customers products sales,
        env.eccRead = Except.ok ecc ∧ env.bwRead = Except.ok bw ∧
        processCustomerData ecc bw now = Except.ok customers ∧
        processProductData ecc bw now = Except.ok products ∧
        processSalesData ecc bw now = Except.ok sales ∧
        env.writeResult customers products sales = Except.error e ∧
        (processSapData env now).1 = etlStages)) := by
  rcases h1 : env.eccRead with e1 | ecc
  · refine ⟨fun r hr => ?_, fun e he => ?_⟩
    · simp [processSapData, h1] at hr
    · have he2 : e1 = e := by simpa [processSapData, h1] using he
      subst he2
      exact Or.inl ⟨rfl, by simp [processSapData, h1]⟩
  · rcases h2 : env.bwRead with e2 | bw
    · refine ⟨fun r hr => ?_, fun e he => ?_⟩
      · simp [processSapData, h1, h2] at hr
      · have he2 : e2 = e := by simpa [processSapData, h1, h2] using he
        subst he2
        exact Or.inr (Or.inl ⟨rfl, by simp [processSapData, h1, h2]⟩)
    · rcases h3 : processCustomerData ecc bw now with e3 | customers
      · refine ⟨fun r hr => ?_, fun e he => ?_⟩
        · simp [processSapData, h1, h2, h3] at hr
        · have he2 : e3 = e := by simpa [processSapData, h1, h2, h3] using he
          subst he2
          exact Or.inr (Or.inr (Or.inl ⟨ecc, bw, rfl, rfl, h3,
            by simp [processSapData, h1, h2, h3]⟩))
      · rcases h4 : processProductData ecc bw now with e4 | products
        · refine ⟨fun r hr => ?_, fun e he => ?_⟩
          · simp [processSapData, h1, h2, h3, h4] at hr
          · have he2 : e4 = e := by
              simpa [processSapData, h1, h2, h3, h4] using he
            subst he2
            exact Or.inr (Or.inr (Or.inr (Or.inl ⟨ecc, bw, rfl, rfl, h4,
              by simp [processSapData, h1, h2, h3, h4]⟩)))
        · rcases h5 : processSalesData ecc bw now with e5 | sales
          · refine ⟨fun r hr => ?_, fun e he => ?_⟩
            · simp [processSapData, h1, h2, h3, h4, h5] at hr
            · have he2 : e5 = e := by
                simpa [processSapData, h1, h2, h3, h4, h5] using he
              subst he2
              exact Or.inr (Or.inr (Or.inr (Or.inr (Or.inl ⟨ecc, bw, rfl, rfl, h5,
                by simp [processSapData, h1, h2, h3, h4, h5]⟩))))
          · rcases h6 : env.writeResult customers products sales with e6 | u
            · refine ⟨fun r hr => ?_, fun e he => ?_⟩
              · simp [processSapData, h1, h2, h3, h4, h5, h6] at hr
              · have he2 : e6 = e := by
                  simpa [processSapData, h1, h2, h3, h4, h5, h6] using he
                subst he2
                exact Or.inr (Or.inr (Or.inr (Or.inr (Or.inr
                  ⟨ecc, bw, customers, products, sales, rfl, rfl, h3, h4, h5, h6,
                    by simp [processSapData, h1, h2, h3, h4, h5, h6]⟩))))
            · refine ⟨fun r hr => ?_, fun e he => ?_⟩
              · have hr2 : etlSummary customers.length products.length sales.length
                    = r := by
                  simpa [processSapData, h1, h2, h3, h4, h5, h6] using hr
                subst hr2
                refine ⟨by simp [processSapData, h1, h2, h3, h4, h5, h6],
                  ecc, bw, customers, products, sales, rfl, rfl, h3, h4, h5, ?_, rfl⟩
                cases u
                exact h6
              · simp [processSapData, h1, h2, h3, h4, h5, h6] at he

end SapPipeline

namespace SapPipeline

/-- Witness for C7: with both reads returning empty slices and a succeeding
write, the orchestrator starts all six stages in order and returns the
summary string for 0 customers, 0 products and 0 sales. -/
theorem claim_C7_witness :
    (processSapData etlEnvEx 0).2 = Except.ok (etlSummary 0 0 0) ∧
    (processSapData etlEnvEx 0).1 = etlStages :=
  ⟨rfl, ((claim_C7 etlEnvEx 0).1 (etlSummary 0 0 0) rfl).1⟩

lemma chunksFuel_flatten {α : Type} :
    ∀ (f : Nat) (l : List α), l.length ≤ f → (chunksFuel f l).flatten = l
  | f, [], _ => by cases f <;> rfl
  | 0, d :: ds, h => by simp at h
  | f + 1, d :: ds, h => by
    have hlen : ((d :: ds).drop 1000).length ≤ f := by
      simp only [List.length_cons] at h
      simp only [List.length_drop, List.length_cons]
      omega
    simp only [chunksFuel, List.flatten_cons,
      chunksFuel_flatten f ((d :: ds).drop 1000) hlen]
    exact List.take_append_drop 1000 (d :: ds)

lemma chunksFuel_le {α : Type} :
    ∀ (f : Nat) (l : List α), ∀ b ∈ chunksFuel f l, b.length ≤ 1000
  | f, [], b, hb => by cases f <;> simp [chunksFuel] at hb
  | 0, d :: ds, b, hb => by simp [chunksFuel] at hb
  | f + 1, d :: ds, b, hb => by
    rcases List.mem_cons.1 hb with rfl | hb2
    · exact List.length_take_le 1000 (d :: ds)
    · exact chunksFuel_le f ((d :: ds).drop 1000) b hb2

/-- Claim C8: uploaded documents are split into consecutive batches, in list
order, of at most 1000 documents each (their concatenation is the original
list); a list of 2500 documents gives exactly 3 batches of sizes
1000, 1000 and 500. -/
lemma chunksFuel_step (f : Nat) (l : List Doc) (h : l ≠ []) :
    chunksFuel (f + 1) l = l.take 1000 :: chunksFuel f (l.drop 1000) := by
  cases l with
  | nil => exact absurd rfl h
  | cons d ds => rfl

lemma chunksFuel_nil (f : Nat) : chunksFuel f ([] : List Doc) = [] := by
  cases f <;> rfl

lemma chunks1000_replicate2500 :
    (chunks1000 (List.replicate 2500 (0 : Doc))).map List.length =
      [1000, 1000, 500] := by
  have hne : ∀ n : Nat, 0 < n → List.replicate n (0 : Doc) ≠ [] := by
    intro n hn h
    have := congrArg List.length h
    simp at this
    omega
  have e1 : chunks1000 (List.replicate 2500 (0 : Doc)) =
      (List.replicate 2500 (0 : Doc)).take 1000 ::
        chunksFuel 2499 ((List.replicate 2500 (0 : Doc)).drop 1000) := by
    rw [chunks1000, List.length_replicate]
    exact chunksFuel_step 2499 _ (hne 2500 (by norm_num))
  have e2 : (List.replicate 2500 (0 : Doc)).take 1000 =
      List.replicate 1000 (0 : Doc) := by
    rw [List.take_replicate]
    norm_num
  have e3 : (List.replicate 2500 (0 : Doc)).drop 1000 =
      List.replicate 1500 (0 : Doc) := by
    rw [List.drop_replicate]
  have e4 : chunksFuel 2499 (List.replicate 1500 (0 : Doc)) =
      (List.replicate 1500 (0 : Doc)).take 1000 ::
        chunksFuel 2498 ((List.replicate 1500 (0 : Doc)).drop 1000) :=
    chunksFuel_step 2498 _ (hne 1500 (by norm_num))
  have e5 : (List.replicate 1500 (0 : Doc)).take 1000 =
      List.replicate 1000 (0 : Doc) := by
    rw [List.take_replicate]
    norm_num
  have e6 : (List.replicate 1500 (0 : Doc)).drop 1000 =
      List.replicate 500 (0 : Doc) := by
    rw [List.drop_replicate]
  have e7 : chunksFuel 2498 (List.replicate 500 (0 : Doc)) =
      (List.replicate 500 (0 : Doc)).take 1000 ::
        chunksFuel 2497 ((List.replicate 500 (0 : Doc)).drop 1000) :=
    chunksFuel_step 2497 _ (hne 500 (by norm_num))
  have e8 : (List.replicate 500 (0 : Doc)).take 1000 =
      List.replicate 500 (0 : Doc) := by
    rw [List.take_replicate]
    norm_num
  have e9 : (List.replicate 500 (0 : Doc)).drop 1000 = [] := by
    rw [List.drop_replicate]
    norm_num
  rw [e1, e2, e3, e4, e5, e6, e7, e8, e9, chunksFuel_nil,
    List.map_cons, List.map_cons, List.map_cons, List.map_nil,
    List.length_replicate, List.length_replicate]

/-- Claim C8: uploaded documents are split into consecutive batches, in list
order, of at most 1000 documents each (their concatenation is the original
list); a list of 2500 documents gives exactly 3 batches of sizes
1000, 1000 and 500. -/
theorem claim_C8 :
    (∀ docs : List Doc, (chunks1000 docs).flatten = docs) ∧
    (∀ docs : List Doc, ∀ b ∈ chunks1000 docs, b.length ≤ 1000) ∧
    (chunks1000 (List.replicate 2500 (0 : Doc))).map List.length =
      [1000, 1000, 500] := by
  refine ⟨fun docs => chunksFuel_flatten _ _ le_rfl,
    fun docs => chunksFuel_le _ _, chunks1000_replicate2500⟩

/-- Witness for C8: a concrete three-document list forms one batch, equal to
the list itself, of size at most 1000. -/
theorem claim_C8_witness :
    (chunks1000 ([7, 8, 9] : List Doc)).flatten = [7, 8, 9] ∧
    [7, 8, 9] ∈ chunks1000 ([7, 8, 9] : List Doc) ∧
    ([7, 8, 9] : List Doc).length ≤ 1000 :=
  ⟨claim_C8.1 [7, 8, 9], by decide,
    claim_C8.2.1 [7, 8, 9] [7, 8, 9] (by decide)⟩

end SapPipeline

namespace SapPipeline

lemma strStartsWith_go_append :
    ∀ l m : List Char, strStartsWith.go l (l ++ m) = true
  | [], _ => rfl
  | a :: as, m => by
    simp only [List.cons_append, strStartsWith.go, beq_self_eq_true,
      Bool.true_and]
    exact strStartsWith_go_append as m

lemma strStartsWith_append (p s : String) : strStartsWith p (p ++ s) = true := by
  rw [strStartsWith, String.data_append]
  exact strStartsWith_go_append p.data s.data

/-- Claim C9 (amended): the index-update entry point always returns one of
five status strings and never propagates an error; index-creation, clearing
and upload failures are converted into descriptive failure strings, but a
failed DOCUMENT RETRIEVAL is swallowed (the failed source simply
contributes no documents), so the returned string can be a success or
`"No documents found to upload"` report despite the failure. -/
theorem claim_C9 (env : SearchEnv) :
    (env.createResult.isOk = false →
      updateAiSearch env = "Failed to create/update search index") ∧
    (env.createResult.isOk = true → env.clearResult.isOk = false →
      updateAiSearch env = "Failed to clear existing documents") ∧
    (env.createResult.isOk = true → env.clearResult.isOk = true →
      allSearchDocuments env = [] →
      updateAiSearch env = "No documents found to upload") ∧
    (env.createResult.isOk = true → env.clearResult.isOk = true →
      allSearchDocuments env ≠ [] →
      uploadDocuments env (allSearchDocuments env) = false →
      updateAiSearch env = "Failed to upload documents to search index") ∧
    (env.createResult.isOk = true → env.clearResult.isOk = true →
      allSearchDocuments env ≠ [] →
      uploadDocuments env (allSearchDocuments env) = true →
      updateAiSearch env =
        "Successfully updated search index with " ++
          toString (allSearchDocuments env).length ++ " documents") ∧
    (specFailureString (updateAiSearch env) = true ∨
      updateAiSearch env = "No documents found to upload" ∨
      strStartsWith "Successfully updated search index with "
        (updateAiSearch env) = true) := by
  rcases hc : env.createResult with ce | cu
  · have hu : updateAiSearch env = "Failed to create/update search index" := by
      simp [updateAiSearch, updateSearchIndex, createSearchIndex, hc]
    refine ⟨fun _ => hu, fun hcr _ => ?_, fun hcr _ _ => ?_,
      fun hcr _ _ _ => ?_, fun hcr _ _ _ => ?_, ?_⟩
    · simp [Except.isOk, Except.toBool] at hcr
    · simp [Except.isOk, Except.toBool] at hcr
    · simp [Except.isOk, Except.toBool] at hcr
    · simp [Except.isOk, Except.toBool] at hcr
    · exact Or.inl (by rw [hu]; rfl)
  · rcases hcl : env.clearResult with cle | clu
    · have hu : updateAiSearch env = "Failed to clear existing documents" := by
        simp [updateAiSearch, updateSearchIndex, createSearchIndex, clearIndex,
          hc, hcl]
      refine ⟨fun hcr => ?_, fun _ _ => hu, fun _ hcr _ => ?_,
        fun _ hcr _ _ => ?_, fun _ hcr _ _ => ?_, ?_⟩
      · simp [Except.isOk, Except.toBool] at hcr
      · simp [Except.isOk, Except.toBool] at hcr
      · simp [Except.isOk, Except.toBool] at hcr
      · simp [Except.isOk, Except.toBool] at hcr
      · exact Or.inl (by rw [hu]; rfl)
    · by_cases hD : allSearchDocuments env = []
      · have hu : updateAiSearch env = "No documents found to upload" := by
          simp [updateAiSearch, updateSearchIndex, createSearchIndex,
            clearIndex, hc, hcl, hD]
        refine ⟨fun hcr => ?_, fun _ hcr => ?_, fun _ _ _ => hu,
          fun _ _ hne _ => absurd hD hne, fun _ _ hne _ => absurd hD hne, ?_⟩
        · simp [Except.isOk, Except.toBool] at hcr
        · simp [Except.isOk, Except.toBool] at hcr
        · exact Or.inr (Or.inl hu)
      · have hDE : (allSearchDocuments env).isEmpty = false := by
          cases h : (allSearchDocuments env).isEmpty
          · rfl
          · exact absurd (List.isEmpty_iff.1 h) hD
        cases hU : uploadDocuments env (allSearchDocuments env)
        · have hu : updateAiSearch env =
              "Failed to upload documents to search index" := by
            simp [updateAiSearch, updateSearchIndex, createSearchIndex,
              clearIndex, hc, hcl, hDE, hU]
          refine ⟨fun hcr => ?_, fun _ hcr => ?_, fun _ _ h => absurd h hD,
            fun _ _ _ _ => hu, fun _ _ _ h => absurd h (by simp [hU]), ?_⟩
          · simp [Except.isOk, Except.toBool] at hcr
          · simp [Except.isOk, Except.toBool] at hcr
          · exact Or.inl (by rw [hu]; rfl)
        · have hu : updateAiSearch env =
              "Successfully updated search index with " ++
                toString (allSearchDocuments env).length ++ " documents" := by
            simp [updateAiSearch, updateSearchIndex, createSearchIndex,
              clearIndex, hc, hcl, hDE, hU]
          refine ⟨fun hcr => ?_, fun _ hcr => ?_, fun _ _ h => absurd h hD,
            fun _ _ _ h => absurd h (by simp [hU]), fun _ _ _ _ => hu, ?_⟩
          · simp [Except.isOk, Except.toBool] at hcr
          · simp [Except.isOk, Except.toBool] at hcr
          · refine Or.inr (Or.inr ?_)
            rw [hu, String.append_assoc]
            exact strStartsWith_append _ _

/-- Counterexample to C9 as stated: with index creation, clearing and upload
all succeeding but the CUSTOMER document retrieval failing, the entry point
returns the SUCCESS string for the one sales document — the retrieval
failure is not converted into a descriptive failure string. -/
theorem claim_C9_counterexample :
    searchEnvRetrievalFail.customerDocs.isOk = false ∧
    updateAiSearch searchEnvRetrievalFail =
      "Successfully updated search index with 1 documents" ∧
    specFailureString (updateAiSearch searchEnvRetrievalFail) = false := by
  refine ⟨rfl, rfl, ?_⟩
  have h : updateAiSearch searchEnvRetrievalFail =
      "Successfully updated search index with 1 documents" := rfl
  rw [h]
  decide

/-- Witness for C9 (amended): a failing index-creation call yields the fixed
descriptive failure string. -/
theorem claim_C9_witness :
    searchEnvCreateFail.createResult.isOk = false ∧
    updateAiSearch searchEnvCreateFail =
      "Failed to create/update search index" ∧
    specFailureString (updateAiSearch searchEnvCreateFail) = true :=
  ⟨rfl, (claim_C9 searchEnvCreateFail).1 rfl, rfl⟩

end SapPipeline

namespace SapPipeline

/-- Claim C10: each of the three reconciliation operations, run with the two
input frames held in an explicit store, leaves the store exactly as it was
and returns the pure reconciliation result: every aggregation, relabeling
and column addition happens on freshly derived frames (`groupby/agg`
outputs, `concat` outputs, and `[[...]].copy()` selections), never on the
inputs. -/
theorem claim_C10 (st : List EccRow × List BwRow) (now : Int) :
    StateT.run (processCustomerDataSt now) st =
      (processCustomerData st.1 st.2 now, st) ∧
    StateT.run (processProductDataSt now) st =
      (processProductData st.1 st.2 now, st) ∧
    StateT.run (processSalesDataSt now) st =
      (processSalesData st.1 st.2 now, st) :=
  ⟨rfl, rfl, rfl⟩

end SapPipeline
